import Mathlib

/-!
Verification of the MediSense Route Risk & Optimization Engine.

Shallow embedding of:
- the score formulas of `src/server.ts` (`GET /api/logistics/status` handler),
- the per-route scoring, route selection and time-saved computation of
  `src/src/App.tsx` (`calculatedRoutes`, `recommendedRoute`, `timeSaved`),
- the explanation generator of `src/src/services/geminiService.ts`
  (`generateRuleBasedExplanation`, `explainLogisticsRisk`).

Real numbers of the source are modelled as rationals; JavaScript
`Math.round` is `round` (both are floor of x + 1/2); `Number.toFixed(2)`
followed by `parseFloat` is modelled as rounding to two decimal places.
-/

namespace MediSense

/-- Weighted delay-risk sum computed in `src/server.ts`:
`(trafficRisk * 0.4) + (weatherRisk * 0.3) + (historicalDelayRate * 0.2) + (incidentDensity * 0.1)`. -/
def delayRiskScoreFormula (trafficRisk weatherRisk historicalDelayRate incidentDensity : ℚ) : ℚ :=
  (trafficRisk * 0.4) + (weatherRisk * 0.3) + (historicalDelayRate * 0.2) + (incidentDensity * 0.1)

/-- Weighted medical-priority sum computed in `src/server.ts`:
`(emergencyLevel * 0.5) + (timeSensitivity * 0.3) + (criticalSupplyFactor * 0.2)`. -/
def medicalPriorityScoreFormula (emergencyLevel timeSensitivity criticalSupplyFactor : ℚ) : ℚ :=
  (emergencyLevel * 0.5) + (timeSensitivity * 0.3) + (criticalSupplyFactor * 0.2)

/-- Rounding to two decimal places, as `parseFloat(x.toFixed(2))` does in
`src/server.ts` (round half up at the second decimal). -/
def roundTo2 (x : ℚ) : ℚ := ((round (x * 100) : ℤ) : ℚ) / 100

/-- The `delayRiskScore` field actually placed in the `/api/logistics/status`
JSON response: `parseFloat(delayRiskScore.toFixed(2))`. -/
def servedDelayRiskScore (trafficRisk weatherRisk historicalDelayRate incidentDensity : ℚ) : ℚ :=
  roundTo2 (delayRiskScoreFormula trafficRisk weatherRisk historicalDelayRate incidentDensity)

/-- The `medicalPriorityScore` field of the `/api/logistics/status` response:
`parseFloat(medicalPriorityScore.toFixed(2))`. -/
def servedMedicalPriorityScore (emergencyLevel timeSensitivity criticalSupplyFactor : ℚ) : ℚ :=
  roundTo2 (medicalPriorityScoreFormula emergencyLevel timeSensitivity criticalSupplyFactor)

/-- A route catalog entry as served by `GET /api/logistics/routes` in
`src/server.ts` and typed by `interface Route` in `src/src/App.tsx`. -/
structure Route where
  id : String
  name : String
  distance : String
  baseTime : ℚ
  riskFactor : ℚ
  priorityPenalty : ℚ
  color : String
  priority : String
  deriving DecidableEq, Repr

/-- A route extended with the derived metrics computed by `calculatedRoutes`
in `src/src/App.tsx`. -/
structure ScoredRoute extends Route where
  delayRisk : ℚ
  objectiveValue : ℚ
  estTime : ℚ
  deriving DecidableEq, Repr

/-- One step of `calculatedRoutes` in `src/src/App.tsx`:
`delayRisk = data.delayRiskScore * route.riskFactor`,
`objectiveValue = delayRisk + route.baseTime + route.priorityPenalty`,
`estTime = route.baseTime + (delayRisk * 10)`. -/
def scoreRoute (delayRiskScore : ℚ) (route : Route) : ScoredRoute :=
  let delayRisk := delayRiskScore * route.riskFactor
  let objectiveValue := delayRisk + route.baseTime + route.priorityPenalty
  { route with
      delayRisk := delayRisk
      objectiveValue := objectiveValue
      estTime := route.baseTime + (delayRisk * 10) }

/-- `calculatedRoutes` of `src/src/App.tsx` with `data` present: every
catalog route is mapped through the scoring step. -/
def calculatedRoutes (delayRiskScore : ℚ) (routes : List Route) : List ScoredRoute :=
  routes.map (scoreRoute delayRiskScore)

/-- The callback of the `reduce` in `src/src/App.tsx`:
`(prev, curr) => prev.objectiveValue < curr.objectiveValue ? prev : curr`. -/
def pickBetter (prev curr : ScoredRoute) : ScoredRoute :=
  if prev.objectiveValue < curr.objectiveValue then prev else curr

/-- `recommendedRoute` of `src/src/App.tsx`:
`calculatedRoutes.reduce((prev, curr) => prev.objectiveValue < curr.objectiveValue ? prev : curr, calculatedRoutes[0])`.
JavaScript `reduce` with an explicit initial value folds over the whole
array, and on an empty array it returns the initial value, here
`calculatedRoutes[0]`, which is `undefined` (modelled as `none`). -/
def recommendedRoute (rs : List ScoredRoute) : Option ScoredRoute :=
  match rs with
  | [] => none
  | r0 :: _ => some (rs.foldl pickBetter r0)

/-- `timeSaved` of `src/src/App.tsx`:
`Math.max(0, Math.round(calculatedRoutes.find(r => r.id !== recommendedRoute?.id)?.estTime - recommendedRoute?.estTime || 0))`.
When `find` yields no route (empty or single-id list) the subtraction is
`NaN`, which `|| 0` turns into `0`; a zero difference is also mapped to `0`
by `|| 0`, which coincides with `round 0`. -/
def timeSaved (rs : List ScoredRoute) : ℤ :=
  match recommendedRoute rs with
  | none => 0
  | some rec =>
    match rs.find? (fun r => r.id ≠ rec.id) with
    | none => 0
    | some c => max 0 (round (c.estTime - rec.estTime))

/-- The merged object handed to `explainLogisticsRisk` in `handleAnalyze` of
`src/src/App.tsx`: `{ ...data, recommendedRoute, timeSaved, accuracy }`. -/
structure ExplainData where
  trafficRisk : ℚ
  weatherRisk : ℚ
  historicalDelayRate : ℚ
  incidentDensity : ℚ
  delayRiskScore : ℚ
  emergencyLevel : ℚ
  timeSensitivity : ℚ
  criticalSupplyFactor : ℚ
  medicalPriorityScore : ℚ
  modelVersion : String
  accuracy : String
  activeFleets : ℕ
  onTimeRate : String
  recommendedRoute : ScoredRoute
  timeSaved : ℤ
  deriving DecidableEq, Repr

/-- Risk-tier sentence of `generateRuleBasedExplanation` for `delayRiskScore > 0.7`. -/
def criticalCongestionText : String :=
  "Critical infrastructure congestion detected. Primary transport corridors are experiencing significant throughput degradation."

/-- Risk-tier sentence of `generateRuleBasedExplanation` for `0.4 < delayRiskScore ≤ 0.7`. -/
def moderateFrictionText : String :=
  "Moderate operational friction identified. Environmental and traffic vectors are converging to create potential delay windows."

/-- Risk-tier sentence of `generateRuleBasedExplanation` for `delayRiskScore ≤ 0.4`. -/
def stableText : String :=
  "Operational environment is stable. Low risk of delay for critical medical units."

/-- Priority sentence of `generateRuleBasedExplanation` for `medicalPriorityScore > 0.8`. -/
def lifeCriticalText : String :=
  " Transport urgency is categorized as \x27Life-Critical\x27. Route selection prioritizes immediate clinical intervention over standard logistics efficiency."

/-- Priority sentence of `generateRuleBasedExplanation` for `medicalPriorityScore ≤ 0.8`. -/
def timeSensitiveText : String :=
  " Transport is categorized as \x27Time-Sensitive\x27. Route selection balances clinical priority with optimal asset utilization."

/-- Weather clause of `generateRuleBasedExplanation`, appended when `weatherRisk > 0.5`. -/
def weatherClauseText : String :=
  " Severe weather conditions are impacting braking distance and visibility, necessitating the use of specialized emergency corridors."

/-- JavaScript `String.prototype.trim`, applied to the template literal of
`generateRuleBasedExplanation`: leading and trailing whitespace characters
are removed (modelled structurally on the character list). -/
def strTrim (s : String) : String :=
  String.mk (((s.data.dropWhile Char.isWhitespace).reverse.dropWhile Char.isWhitespace).reverse)

/-- The `riskAnalysis` local of `generateRuleBasedExplanation` in
`src/src/services/geminiService.ts`: `if (delayRiskScore > 0.7) ... else if (delayRiskScore > 0.4) ... else ...`. -/
def riskAnalysis (delayRiskScore : ℚ) : String :=
  if delayRiskScore > 0.7 then criticalCongestionText
  else if delayRiskScore > 0.4 then moderateFrictionText
  else stableText

/-- The `priorityAnalysis` local of `generateRuleBasedExplanation`:
`if (medicalPriorityScore > 0.8) ... else ...`. -/
def priorityAnalysis (medicalPriorityScore : ℚ) : String :=
  if medicalPriorityScore > 0.8 then lifeCriticalText else timeSensitiveText

/-- The `weatherImpact` local of `generateRuleBasedExplanation`:
`weatherRisk > 0.5 ? " Severe weather conditions ..." : ""`. -/
def weatherImpact (weatherRisk : ℚ) : String :=
  if weatherRisk > 0.5 then weatherClauseText else ""

/-- `generateRuleBasedExplanation` of `src/src/services/geminiService.ts`:
the trimmed template literal with the risk, priority and weather parts
interpolated into the four-section markdown report. -/
def generateRuleBasedExplanation (data : ExplainData) : String :=
  strTrim ("\n### Recommended Route\n**" ++ data.recommendedRoute.name
    ++ "**\n\n### Estimated Time Saved\n**" ++ toString data.timeSaved
    ++ " minutes**\n\n### Operational Risk Explanation\n"
    ++ riskAnalysis data.delayRiskScore
    ++ priorityAnalysis data.medicalPriorityScore
    ++ weatherImpact data.weatherRisk
    ++ " The selection of **" ++ data.recommendedRoute.name
    ++ "** is mathematically optimized to minimize the risk-to-time ratio, ensuring medical integrity is maintained during the transit window.\n\n### Model Confidence Score\n**"
    ++ data.accuracy ++ "**\n  ")

/-- The credential gate of `explainLogisticsRisk`:
`process.env.GEMINI_API_KEY && process.env.GEMINI_API_KEY !== "YOUR_API_KEY"`.
An absent variable or an empty string is falsy; the placeholder is excluded. -/
def hasApiKey : Option String → Bool
  | none => false
  | some k => !(k == "") && !(k == "YOUR_API_KEY")

/-- `explainLogisticsRisk` of `src/src/services/geminiService.ts`. The
external text-generation call is modelled by its outcome `externalCall`:
`Except.ok text` is a successful response (returned verbatim) and
`Except.error e` a thrown error, caught and replaced by the fallback. The
no-credential branch never performs the call. -/
def explainLogisticsRisk (apiKey : Option String) (externalCall : Except String String)
    (data : ExplainData) : String :=
  if hasApiKey apiKey then
    match externalCall with
    | Except.ok text => text
    | Except.error _ => generateRuleBasedExplanation data
  else
    generateRuleBasedExplanation data

/-- Character-list match at the head: `matchesAt pat l` is true when `pat`
is an initial segment of `l`. -/
def matchesAt : List Char → List Char → Bool
  | [], _ => true
  | _ :: _, [] => false
  | p :: ps, c :: cs => p == c && matchesAt ps cs

/-- `hasSegment pat l` is true when `pat` occurs contiguously in `l`. -/
def hasSegment (pat : List Char) : List Char → Bool
  | [] => pat.isEmpty
  | l@(_ :: cs) => matchesAt pat l || hasSegment pat cs

/-- Substring test on strings, used to state the phrase-containment
properties of generated reports. -/
def containsStr (s pat : String) : Bool := hasSegment pat.data s.data

/-- The `route-alpha` catalog entry served by `GET /api/logistics/routes`. -/
def routeAlpha : Route :=
  { id := "route-alpha", name := "Medical Emergency Corridor (Alpha)", distance := "8.2 km",
    baseTime := 12, riskFactor := 0.1, priorityPenalty := 0, color := "#10b981",
    priority := "Critical" }

/-- A concrete scored route with `objectiveValue = 10`, used to exercise the
tie-breaking of the selector. -/
def routeTieA : ScoredRoute :=
  { id := "route-a", name := "Tie Route A", distance := "5 km",
    baseTime := 10, riskFactor := 0, priorityPenalty := 0, color := "#111111",
    priority := "Critical", delayRisk := 0, objectiveValue := 10, estTime := 10 }

/-- A second scored route with the same `objectiveValue = 10` but a distinct
id, placed after `routeTieA` in the candidate list. -/
def routeTieB : ScoredRoute :=
  { id := "route-b", name := "Tie Route B", distance := "6 km",
    baseTime := 10, riskFactor := 0, priorityPenalty := 0, color := "#222222",
    priority := "Critical", delayRisk := 0, objectiveValue := 10, estTime := 12 }

/-- A concrete recommended scored route for exercising `timeSaved`. -/
def routeFastW : ScoredRoute :=
  { id := "route-fast", name := "Fast Route", distance := "7 km",
    baseTime := 11, riskFactor := 0, priorityPenalty := 0, color := "#333333",
    priority := "Critical", delayRisk := 0, objectiveValue := 11, estTime := 12 }

/-- A concrete alternative scored route (larger objective) for `timeSaved`. -/
def routeSlowW : ScoredRoute :=
  { id := "route-slow", name := "Slow Route", distance := "8 km",
    baseTime := 20, riskFactor := 0, priorityPenalty := 0, color := "#444444",
    priority := "Standard", delayRisk := 0, objectiveValue := 20, estTime := 20 }

/-- The recommended route named in the spec's high-risk fallback test vector. -/
def alphaScored : ScoredRoute :=
  { routeAlpha with delayRisk := 0.085, objectiveValue := 12.085, estTime := 12.85 }

/-- The spec's high-risk fallback test vector: `delayRiskScore=0.85`,
`medicalPriorityScore=0.9`, `weatherRisk=0.6`,
`recommendedRoute.name="Medical Emergency Corridor (Alpha)"`, `timeSaved=16`,
`accuracy="94.8%"`. -/
def explainSample1 : ExplainData :=
  { trafficRisk := 0.5, weatherRisk := 0.6, historicalDelayRate := 0.18, incidentDensity := 0.1,
    delayRiskScore := 0.85, emergencyLevel := 0.7, timeSensitivity := 0.8,
    criticalSupplyFactor := 0.6, medicalPriorityScore := 0.9, modelVersion := "2.2.0-HC-CORE",
    accuracy := "94.8%", activeFleets := 10, onTimeRate := "98.4%",
    recommendedRoute := alphaScored, timeSaved := 16 }

/-- The spec's low-risk fallback test vector: `delayRiskScore=0.2`,
`medicalPriorityScore=0.3`, `weatherRisk=0.1` (other fields as in the
high-risk vector). -/
def explainSample2 : ExplainData :=
  { explainSample1 with delayRiskScore := 0.2, medicalPriorityScore := 0.3, weatherRisk := 0.1 }

/-- A scored route sharing only its `name` with `alphaScored`: every other
route field differs. -/
def alphaScoredVar : ScoredRoute :=
  { alphaScored with
      id := "route-other", distance := "99 km", baseTime := 50, riskFactor := 0.9,
      priorityPenalty := 40, color := "#000000", priority := "Standard",
      delayRisk := 7, objectiveValue := 97, estTime := 120 }

/-- A variant of the high-risk vector that changes every field the fallback
text never reads (`trafficRisk`, `historicalDelayRate`, `incidentDensity`,
`emergencyLevel`, `timeSensitivity`, `criticalSupplyFactor`, the display
passthrough fields and the non-name route fields) while agreeing with
`explainSample1` on `weatherRisk`, `delayRiskScore`, `medicalPriorityScore`,
`recommendedRoute.name`, `timeSaved` and `accuracy`. -/
def explainSample1Var : ExplainData :=
  { explainSample1 with
      trafficRisk := 0.99, historicalDelayRate := 0.01, incidentDensity := 0.77,
      emergencyLevel := 0.11, timeSensitivity := 0.22, criticalSupplyFactor := 0.33,
      modelVersion := "other", activeFleets := 3, onTimeRate := "1%",
      recommendedRoute := alphaScoredVar }

/-! ## Theorems -/

/-- C1: the derived scores and per-route metrics are exactly the stated
weighted sums: `delayRiskScore = 0.4*trafficRisk + 0.3*weatherRisk +
0.2*historicalDelayRate + 0.1*incidentDensity`, `medicalPriorityScore =
0.5*emergencyLevel + 0.3*timeSensitivity + 0.2*criticalSupplyFactor`, and
for every route `delayRisk = delayRiskScore * riskFactor`,
`objectiveValue = delayRisk + baseTime + priorityPenalty`,
`estimatedTime = baseTime + delayRisk*10`. -/
theorem claim1_weighted_sum_formulas
    (t w h i e s c d : ℚ) (route : Route) :
    delayRiskScoreFormula t w h i = 0.4 * t + 0.3 * w + 0.2 * h + 0.1 * i ∧
    medicalPriorityScoreFormula e s c = 0.5 * e + 0.3 * s + 0.2 * c ∧
    (scoreRoute d route).delayRisk = d * route.riskFactor ∧
    (scoreRoute d route).objectiveValue =
      (scoreRoute d route).delayRisk + route.baseTime + route.priorityPenalty ∧
    (scoreRoute d route).estTime = route.baseTime + (scoreRoute d route).delayRisk * 10 := by
  refine ⟨by unfold delayRiskScoreFormula; ring,
          by unfold medicalPriorityScoreFormula; ring, ?_, ?_, ?_⟩ <;>
    simp [scoreRoute]

/-- C5: the fallback generator picks its risk-tier sentence by strict
thresholds on `delayRiskScore` checked in order (`>0.7` critical congestion,
else `>0.4` moderate friction, else stable), its priority sentence by
`medicalPriorityScore > 0.8` (Life-Critical) versus otherwise
(Time-Sensitive), and appends the weather clause iff `weatherRisk > 0.5`. -/
theorem claim5_threshold_characterization (d p w : ℚ) :
    (riskAnalysis d = criticalCongestionText ↔ d > 0.7) ∧
    (riskAnalysis d = moderateFrictionText ↔ d ≤ 0.7 ∧ d > 0.4) ∧
    (riskAnalysis d = stableText ↔ d ≤ 0.4) ∧
    (priorityAnalysis p = lifeCriticalText ↔ p > 0.8) ∧
    (priorityAnalysis p = timeSensitiveText ↔ p ≤ 0.8) ∧
    (weatherImpact w = weatherClauseText ↔ w > 0.5) ∧
    (weatherImpact w = "" ↔ w ≤ 0.5) := by
  unfold riskAnalysis priorityAnalysis weatherImpact
  refine ⟨?_, ?_, ?_, ?_, ?_, ?_, ?_⟩ <;> split_ifs with ha hb <;>
    first
      | exact iff_of_true rfl (by linarith)
      | exact iff_of_true rfl ⟨by linarith, by linarith⟩
      | exact iff_of_false (by decide)
          (by intro hx; first | linarith | (obtain ⟨x, y⟩ := hx; linarith))

/-- C7: a failure of the external call is caught and replaced by the
deterministic fallback (the caller never observes it), and the result under
an injected failure is identical to the result of the no-credential path
(absent, empty or placeholder key) on the same input. -/
theorem claim7_failure_transparent_fallback
    (key : Option String) (e : String) (ec : Except String String) (data : ExplainData) :
    explainLogisticsRisk key (Except.error e) data = generateRuleBasedExplanation data ∧
    explainLogisticsRisk none ec data = generateRuleBasedExplanation data ∧
    explainLogisticsRisk (some "") ec data = generateRuleBasedExplanation data ∧
    explainLogisticsRisk (some "YOUR_API_KEY") ec data = generateRuleBasedExplanation data ∧
    explainLogisticsRisk key (Except.error e) data = explainLogisticsRisk none ec data := by
  unfold explainLogisticsRisk hasApiKey
  refine ⟨?_, ?_, ?_, ?_, ?_⟩ <;> split_ifs <;> simp_all

/-- C9: with all components in `[0,1]`, `delayRiskScore` and
`medicalPriorityScore` lie in `[0,1]` (the weights are non-negative and sum
to 1). -/
theorem claim9_score_bounds
    (t w h i e s c : ℚ)
    (ht0 : 0 ≤ t) (ht1 : t ≤ 1) (hw0 : 0 ≤ w) (hw1 : w ≤ 1)
    (hh0 : 0 ≤ h) (hh1 : h ≤ 1) (hi0 : 0 ≤ i) (hi1 : i ≤ 1)
    (he0 : 0 ≤ e) (he1 : e ≤ 1) (hs0 : 0 ≤ s) (hs1 : s ≤ 1)
    (hc0 : 0 ≤ c) (hc1 : c ≤ 1) :
    0 ≤ delayRiskScoreFormula t w h i ∧ delayRiskScoreFormula t w h i ≤ 1 ∧
    0 ≤ medicalPriorityScoreFormula e s c ∧ medicalPriorityScoreFormula e s c ≤ 1 := by
  unfold delayRiskScoreFormula medicalPriorityScoreFormula
  refine ⟨by nlinarith, by nlinarith, by nlinarith, by nlinarith⟩

/-- Witness for C9 at components all `1/2`: hypotheses hold and the scores
are within `[0,1]`. -/
theorem claim9_score_bounds_witness :
    (0 : ℚ) ≤ 1/2 ∧ (1/2 : ℚ) ≤ 1 ∧
    (0 ≤ delayRiskScoreFormula (1/2) (1/2) (1/2) (1/2) ∧
      delayRiskScoreFormula (1/2) (1/2) (1/2) (1/2) ≤ 1 ∧
      0 ≤ medicalPriorityScoreFormula (1/2) (1/2) (1/2) ∧
      medicalPriorityScoreFormula (1/2) (1/2) (1/2) ≤ 1) :=
  ⟨by norm_num, by norm_num,
    claim9_score_bounds (1/2) (1/2) (1/2) (1/2) (1/2) (1/2) (1/2)
      (by norm_num) (by norm_num) (by norm_num) (by norm_num) (by norm_num) (by norm_num)
      (by norm_num) (by norm_num) (by norm_num) (by norm_num) (by norm_num) (by norm_num)
      (by norm_num) (by norm_num)⟩

/-- C10: the fallback text depends only on `weatherRisk`, `delayRiskScore`,
`medicalPriorityScore`, `recommendedRoute.name`, `timeSaved` and `accuracy`:
two inputs agreeing on those six produce identical markdown. -/
theorem claim10_fallback_noninterference
    (a b : ExplainData)
    (hw : a.weatherRisk = b.weatherRisk)
    (hd : a.delayRiskScore = b.delayRiskScore)
    (hp : a.medicalPriorityScore = b.medicalPriorityScore)
    (hn : a.recommendedRoute.name = b.recommendedRoute.name)
    (ht : a.timeSaved = b.timeSaved)
    (ha : a.accuracy = b.accuracy) :
    generateRuleBasedExplanation a = generateRuleBasedExplanation b := by
  unfold generateRuleBasedExplanation
  rw [hw, hd, hp, hn, ht, ha]

/-- Witness for C10: the high-risk vector and its variant agree on the six
read fields (each by `rfl`) and yield identical fallback text, although they
differ on every unread field. -/
theorem claim10_fallback_noninterference_witness :
    explainSample1.weatherRisk = explainSample1Var.weatherRisk ∧
    explainSample1.delayRiskScore = explainSample1Var.delayRiskScore ∧
    explainSample1.medicalPriorityScore = explainSample1Var.medicalPriorityScore ∧
    explainSample1.recommendedRoute.name = explainSample1Var.recommendedRoute.name ∧
    explainSample1.timeSaved = explainSample1Var.timeSaved ∧
    explainSample1.accuracy = explainSample1Var.accuracy ∧
    explainSample1.trafficRisk ≠ explainSample1Var.trafficRisk ∧
    generateRuleBasedExplanation explainSample1 = generateRuleBasedExplanation explainSample1Var :=
  ⟨rfl, rfl, rfl, rfl, rfl, rfl, by norm_num [explainSample1, explainSample1Var],
    claim10_fallback_noninterference explainSample1 explainSample1Var rfl rfl rfl rfl rfl rfl⟩

/-- C3 counterexample: on the empty candidate list the selector returns the
absent value (JavaScript `undefined`, modelled `none`) instead of signalling
a "no candidates" error, and downstream `timeSaved` silently evaluates to 0. -/
theorem claim3_counterexample :
    recommendedRoute ([] : List ScoredRoute) = none ∧
    timeSaved ([] : List ScoredRoute) = 0 :=
  ⟨rfl, rfl⟩

/-- C3 (amended): on an empty candidate set the selector silently returns
`undefined` (`none`) — it never raises an error — and `none` is returned
exactly on empty input; `timeSaved` then degrades to 0. -/
theorem claim3_empty_returns_undefined :
    recommendedRoute ([] : List ScoredRoute) = none ∧
    timeSaved ([] : List ScoredRoute) = 0 ∧
    ∀ rs : List ScoredRoute, recommendedRoute rs = none ↔ rs = [] := by
  refine ⟨rfl, rfl, fun rs => ?_⟩
  cases rs <;> simp [recommendedRoute]

/-- C4: `timeSaved = max(0, round(estimatedTime(c) - estimatedTime(recommended)))`
where `c` is the first candidate whose id differs from the recommended id;
and on a single-route list the selected route is that route with
`timeSaved = 0`. -/
theorem claim4_timeSaved_formula :
    (∀ (rs : List ScoredRoute) (recd c : ScoredRoute),
      recommendedRoute rs = some recd →
      rs.find? (fun r => r.id ≠ recd.id) = some c →
      timeSaved rs = max 0 (round (c.estTime - recd.estTime))) ∧
    (∀ r : ScoredRoute, recommendedRoute [r] = some r ∧ timeSaved [r] = 0) := by
  constructor
  · intro rs recd c h1 h2
    unfold timeSaved
    rw [h1]
    dsimp only
    rw [h2]
  · intro r
    have hrec : recommendedRoute [r] = some r := by
      simp [recommendedRoute, pickBetter]
    refine ⟨hrec, ?_⟩
    unfold timeSaved
    rw [hrec]
    simp

/-- Witness for C4 on a concrete two-route list: the selector picks the
faster route, the first id-mismatching candidate is the slower route, and
`timeSaved` equals the rounded positive difference. -/
theorem claim4_timeSaved_formula_witness :
    recommendedRoute [routeFastW, routeSlowW] = some routeFastW ∧
    List.find? (fun r => r.id ≠ routeFastW.id) [routeFastW, routeSlowW] = some routeSlowW ∧
    timeSaved [routeFastW, routeSlowW] =
      max 0 (round (routeSlowW.estTime - routeFastW.estTime)) :=
  have h1 : recommendedRoute [routeFastW, routeSlowW] = some routeFastW := by
    norm_num [recommendedRoute, List.foldl, pickBetter, routeFastW, routeSlowW]
  have h2 : List.find? (fun r => r.id ≠ routeFastW.id) [routeFastW, routeSlowW]
      = some routeSlowW := by
    rfl
  ⟨h1, h2, claim4_timeSaved_formula.1 [routeFastW, routeSlowW] routeFastW routeSlowW h1 h2⟩

theorem foldl_pickBetter_lt_all (b : ScoredRoute) (zs : List ScoredRoute)
    (h : ∀ c ∈ zs, b.objectiveValue < c.objectiveValue) :
    zs.foldl pickBetter b = b := by
  induction zs with
  | nil => rfl
  | cons c cs ih =>
    simp only [List.foldl_cons]
    have hb : pickBetter b c = b := by
      unfold pickBetter
      exact if_pos (h c (List.mem_cons_self c cs))
    rw [hb]
    exact ih fun x hx => h x (List.mem_cons_of_mem c hx)

theorem foldl_pickBetter_le (b a : ScoredRoute) (xs : List ScoredRoute)
    (hb : b.objectiveValue ≤ a.objectiveValue)
    (h : ∀ c ∈ xs, b.objectiveValue ≤ c.objectiveValue) :
    b.objectiveValue ≤ (xs.foldl pickBetter a).objectiveValue := by
  induction xs generalizing a with
  | nil => exact hb
  | cons c cs ih =>
    simp only [List.foldl_cons]
    refine ih (pickBetter a c) ?_ fun x hx => h x (List.mem_cons_of_mem c hx)
    unfold pickBetter
    split_ifs
    · exact hb
    · exact h c (List.mem_cons_self c cs)

/-- C2 counterexample: two routes with equal `objectiveValue = 10`; the
selector returns the second in input order, not the first — ties go to the
challenger, because `prev` is kept only when strictly smaller. -/
theorem claim2_counterexample :
    routeTieA.objectiveValue = 10 ∧ routeTieB.objectiveValue = 10 ∧
    routeTieA ≠ routeTieB ∧
    recommendedRoute [routeTieA, routeTieB] = some routeTieB ∧
    recommendedRoute [routeTieA, routeTieB] ≠ some routeTieA := by
  have hne : routeTieA ≠ routeTieB := by
    intro h
    have := congrArg (fun s => s.id) h
    simp only [routeTieA, routeTieB] at this
    exact absurd this (by decide)
  have hsel : recommendedRoute [routeTieA, routeTieB] = some routeTieB := by
    norm_num [recommendedRoute, List.foldl, pickBetter, routeTieA, routeTieB]
  refine ⟨rfl, rfl, hne, hsel, ?_⟩
  rw [hsel]
  intro h
  exact hne (Option.some.inj h).symm

/-- C2 (amended): the reduce keeps the current best only when its
`objectiveValue` is strictly less than the challenger's, which yields
rightmost-wins tie-breaking: any route whose `objectiveValue` is less than
or equal to every earlier candidate's and strictly less than every later
candidate's — in particular the last of several exactly tied minima — is
the one returned. -/
theorem claim2_strict_less_rightmost_ties
    (xs zs : List ScoredRoute) (b : ScoredRoute)
    (hxs : ∀ c ∈ xs, b.objectiveValue ≤ c.objectiveValue)
    (hzs : ∀ c ∈ zs, b.objectiveValue < c.objectiveValue) :
    recommendedRoute (xs ++ b :: zs) = some b := by
  cases xs with
  | nil =>
    simp only [List.nil_append, recommendedRoute]
    congr 1
    simp only [List.foldl_cons]
    have hb : pickBetter b b = b := by
      unfold pickBetter
      split_ifs <;> rfl
    rw [hb]
    exact foldl_pickBetter_lt_all b zs hzs
  | cons x xs' =>
    simp only [List.cons_append, recommendedRoute]
    congr 1
    simp only [List.foldl_cons]
    have hx : pickBetter x x = x := by
      unfold pickBetter
      split_ifs <;> rfl
    rw [hx, List.foldl_append]
    have hbm : b.objectiveValue ≤ (xs'.foldl pickBetter x).objectiveValue :=
      foldl_pickBetter_le b x xs' (hxs x (List.mem_cons_self x xs'))
        fun c hc => hxs c (List.mem_cons_of_mem x hc)
    simp only [List.foldl_cons]
    have hmb : pickBetter (xs'.foldl pickBetter x) b = b := by
      unfold pickBetter
      exact if_neg (not_lt.mpr hbm)
    rw [hmb]
    exact foldl_pickBetter_lt_all b zs hzs

/-- Witness for the amended C2 on the concrete tied pair: `routeTieB` ties
`routeTieA` (`10 ≤ 10`) and, being last, is the route returned. -/
theorem claim2_strict_less_rightmost_ties_witness :
    routeTieB.objectiveValue ≤ routeTieA.objectiveValue ∧
    recommendedRoute ([routeTieA] ++ routeTieB :: []) = some routeTieB :=
  ⟨by norm_num [routeTieA, routeTieB],
    claim2_strict_less_rightmost_ties [routeTieA] [] routeTieB
      (by intro c hc; rw [List.mem_singleton.mp hc]; norm_num [routeTieA, routeTieB])
      (by intro c hc; cases hc)⟩

/-- C8 counterexample: at `trafficRisk=0.2, weatherRisk=0.05,
historicalDelayRate=0.18, incidentDensity=0`, the unrounded weighted sum is
`0.131` but the `/api/logistics/status` response carries `0.13`, and the
client's per-route arithmetic on `route-alpha` consumes the rounded value:
its `delayRisk` is `0.013`, not the `0.0131` the unrounded sum would give. -/
theorem claim8_counterexample :
    delayRiskScoreFormula 0.2 0.05 0.18 0 = 0.131 ∧
    servedDelayRiskScore 0.2 0.05 0.18 0 = 0.13 ∧
    servedDelayRiskScore 0.2 0.05 0.18 0 ≠ delayRiskScoreFormula 0.2 0.05 0.18 0 ∧
    (scoreRoute (servedDelayRiskScore 0.2 0.05 0.18 0) routeAlpha).delayRisk = 0.013 ∧
    (scoreRoute (servedDelayRiskScore 0.2 0.05 0.18 0) routeAlpha).delayRisk ≠
      delayRiskScoreFormula 0.2 0.05 0.18 0 * routeAlpha.riskFactor := by
  have hraw : delayRiskScoreFormula 0.2 0.05 0.18 0 = 0.131 := by
    unfold delayRiskScoreFormula
    norm_num
  have hserved : servedDelayRiskScore 0.2 0.05 0.18 0 = 0.13 := by
    unfold servedDelayRiskScore roundTo2
    rw [hraw]
    norm_num [round_eq]
  refine ⟨hraw, hserved, ?_, ?_, ?_⟩
  · rw [hraw, hserved]; norm_num
  · simp only [scoreRoute, hserved, routeAlpha]; norm_num
  · simp only [scoreRoute, hserved, hraw, routeAlpha]; norm_num

/-- C8 (amended): rounding to 2 decimal places is applied before the
presentation boundary — the status response carries the rounded weighted
sums, and the client's per-route arithmetic (`delayRisk`, `objectiveValue`,
`estimatedTime`) consumes the rounded `delayRiskScore`, not the unrounded
sum. -/
theorem claim8_rounding_feeds_arithmetic
    (t w h i e s c : ℚ) (route : Route) :
    servedDelayRiskScore t w h i = roundTo2 (delayRiskScoreFormula t w h i) ∧
    servedMedicalPriorityScore e s c = roundTo2 (medicalPriorityScoreFormula e s c) ∧
    (scoreRoute (servedDelayRiskScore t w h i) route).delayRisk =
      roundTo2 (delayRiskScoreFormula t w h i) * route.riskFactor ∧
    (scoreRoute (servedDelayRiskScore t w h i) route).objectiveValue =
      roundTo2 (delayRiskScoreFormula t w h i) * route.riskFactor
        + route.baseTime + route.priorityPenalty ∧
    (scoreRoute (servedDelayRiskScore t w h i) route).estTime =
      route.baseTime + roundTo2 (delayRiskScoreFormula t w h i) * route.riskFactor * 10 := by
  refine ⟨rfl, rfl, ?_, ?_, ?_⟩ <;> simp [scoreRoute, servedDelayRiskScore]

set_option maxRecDepth 8000

/-- C6: on the high-risk vector (`delayRiskScore=0.85`,
`medicalPriorityScore=0.9`, `weatherRisk=0.6`, route name
"Medical Emergency Corridor (Alpha)", `timeSaved=16`, `accuracy="94.8%"`)
the fallback text contains the critical-congestion phrase, the
Life-Critical phrase, the weather clause and all four section headers; on
the low-risk vector (`0.2`/`0.3`/`0.1`) it contains the stable narrative
and the Time-Sensitive framing and omits the weather clause. -/
theorem claim6_concrete_fallback_reports :
    containsStr (generateRuleBasedExplanation explainSample1)
      "Critical infrastructure congestion" = true ∧
    containsStr (generateRuleBasedExplanation explainSample1) "Life-Critical" = true ∧
    containsStr (generateRuleBasedExplanation explainSample1)
      "Severe weather conditions" = true ∧
    containsStr (generateRuleBasedExplanation explainSample1) "### Recommended Route" = true ∧
    containsStr (generateRuleBasedExplanation explainSample1)
      "### Estimated Time Saved" = true ∧
    containsStr (generateRuleBasedExplanation explainSample1)
      "### Operational Risk Explanation" = true ∧
    containsStr (generateRuleBasedExplanation explainSample1)
      "### Model Confidence Score" = true ∧
    containsStr (generateRuleBasedExplanation explainSample2)
      "Operational environment is stable" = true ∧
    containsStr (generateRuleBasedExplanation explainSample2) "Time-Sensitive" = true ∧
    containsStr (generateRuleBasedExplanation explainSample2)
      "Severe weather conditions" = false := by
  have e1 : generateRuleBasedExplanation explainSample1 =
      strTrim ("\n### Recommended Route\n**" ++ "Medical Emergency Corridor (Alpha)"
        ++ "**\n\n### Estimated Time Saved\n**" ++ "16"
        ++ " minutes**\n\n### Operational Risk Explanation\n"
        ++ criticalCongestionText ++ lifeCriticalText ++ weatherClauseText
        ++ " The selection of **" ++ "Medical Emergency Corridor (Alpha)"
        ++ "** is mathematically optimized to minimize the risk-to-time ratio, ensuring medical integrity is maintained during the transit window.\n\n### Model Confidence Score\n**"
        ++ "94.8%" ++ "**\n  ") := by
    unfold generateRuleBasedExplanation riskAnalysis priorityAnalysis weatherImpact
    norm_num [explainSample1, alphaScored, routeAlpha]
    rfl
  have e2 : generateRuleBasedExplanation explainSample2 =
      strTrim ("\n### Recommended Route\n**" ++ "Medical Emergency Corridor (Alpha)"
        ++ "**\n\n### Estimated Time Saved\n**" ++ "16"
        ++ " minutes**\n\n### Operational Risk Explanation\n"
        ++ stableText ++ timeSensitiveText ++ ""
        ++ " The selection of **" ++ "Medical Emergency Corridor (Alpha)"
        ++ "** is mathematically optimized to minimize the risk-to-time ratio, ensuring medical integrity is maintained during the transit window.\n\n### Model Confidence Score\n**"
        ++ "94.8%" ++ "**\n  ") := by
    unfold generateRuleBasedExplanation riskAnalysis priorityAnalysis weatherImpact
    norm_num [explainSample2, explainSample1, alphaScored, routeAlpha]
    rfl
  rw [e1, e2]
  refine ⟨?_, ?_, ?_, ?_, ?_, ?_, ?_, ?_, ?_, ?_⟩ <;> decide

end MediSense
